import Mathlib

/-!
Verification of the two AWS Lambda handlers of this repository.

`LambdaAction` models `src/LambdaAction.py` (the CourseQueryService): routing
of Bedrock agent action events to six read operations over the `MyCourses`
DynamoDB table, normalization of records, decimal conversion, sorting, and
the Bedrock response envelope.

`CallToAgent` models `src/LambdaCallToAgent.py` (the AgentRouter): request
validation, the technical/non-technical keyword classifier, agent selection,
streaming response aggregation with fallback, and the success/error response
envelopes.

Python dictionaries, lists, strings, booleans, integers, `Decimal` values and
floats are modelled by the inductive type `PyVal`.  DynamoDB is modelled as
the list of items a full (paginated) scan returns; JSON serialization at the
envelope boundary is kept structural (the dict itself rather than its dump).
-/

/-- Model of the Python/JSON values flowing through both handlers.
`dec` is a `decimal.Decimal` as returned by DynamoDB, `flt` a Python float;
both carry their numeric value as a rational, since only the tag and the
value carried across the `float(...)` conversion matter here. -/
inductive PyVal where
  | str (s : String)
  | bool (b : Bool)
  | int (n : Int)
  | dec (q : Rat)
  | flt (q : Rat)
  | list (items : List PyVal)
  | dict (fields : List (String × PyVal))

/-- Python truthiness (`if not x:` tests) for the modelled values. -/
def truthy : PyVal → Bool
  | .str s => !(s == "")
  | .bool b => b
  | .int n => !(n == 0)
  | .dec q => decide (q ≠ 0)
  | .flt q => decide (q ≠ 0)
  | .list items => !items.isEmpty
  | .dict fields => !fields.isEmpty

/-- `d[k]` lookup on a modelled dict; `none` on a non-dict or missing key. -/
def pyLookup (v : PyVal) (k : String) : Option PyVal :=
  match v with
  | .dict fields => fields.lookup k
  | _ => none

/-- Python `d.get(k, dft)` on a modelled dict. -/
def pyGet (v : PyVal) (k : String) (dft : PyVal) : PyVal :=
  (pyLookup v k).getD dft

/-- Occurrence of `k` as a contiguous subsequence of `l`, by scanning every
suffix for a prefix match. -/
def substr_occurs (k : List Char) : List Char → Bool
  | [] => k.isEmpty
  | c :: rest => k.isPrefixOf (c :: rest) || substr_occurs k rest

/-- Python substring test `k in s` (both already strings). -/
def substrOf (k s : String) : Bool :=
  substr_occurs k.data s.data

/-- Python `s.lower()`: character-wise lowering (`String.toLower` maps
`Char.toLower` over the characters). -/
def lower (s : String) : String :=
  ⟨s.data.map Char.toLower⟩

/-- Python `s.strip()`: drop leading and trailing whitespace characters
(`String.trim`, character-wise). -/
def strip (s : String) : String :=
  ⟨((s.data.dropWhile Char.isWhitespace).reverse.dropWhile Char.isWhitespace).reverse⟩

namespace LambdaAction

mutual

/-- `convert_decimals` of `src/LambdaAction.py` lines 257-266: recursively
replaces every `Decimal` by `float`, descending through lists and dicts. -/
def convert_decimals : PyVal → PyVal
  | .str s => .str s
  | .bool b => .bool b
  | .int n => .int n
  | .dec q => .flt q
  | .flt q => .flt q
  | .list items => .list (convert_list items)
  | .dict fields => .dict (convert_fields fields)

/-- The list comprehension branch of `convert_decimals`. -/
def convert_list : List PyVal → List PyVal
  | [] => []
  | v :: vs => convert_decimals v :: convert_list vs

/-- The dict comprehension branch of `convert_decimals`. -/
def convert_fields : List (String × PyVal) → List (String × PyVal)
  | [] => []
  | (k, v) :: kvs => (k, convert_decimals v) :: convert_fields kvs

end

/-- Normalization of one raw store record to the fixed output schema
(`src/LambdaAction.py` lines 109-116, 172-179, 231-237). -/
def normalize_course (course : PyVal) : PyVal :=
  .dict [("CourseID", pyGet course "CourseID" (.str "")),
         ("CourseName", pyGet course "Course Name" (.str "")),
         ("Duration", pyGet course "Duration (hours)" (.str "")),
         ("State", pyGet course "State" (.str ""))]

/-- The sort key `lambda x: x.get('CourseID', '')` of lines 119 and 181.
Course identifiers are strings in the data model; a non-string value is
outside the domain on which the Python comparison is defined. -/
def sort_key (x : PyVal) : String :=
  match pyGet x "CourseID" (.str "") with
  | .str s => s
  | _ => ""

/-- Ordering used by `normalized_courses.sort(key=...)`: ascending by the
`CourseID` string under plain string comparison, i.e. lexicographic
comparison of the character (code point) sequences, as Python compares
strings. -/
def course_le (a b : PyVal) : Prop := (sort_key a).data ≤ (sort_key b).data

instance : DecidableRel course_le :=
  fun a b => inferInstanceAs (Decidable ((sort_key a).data ≤ (sort_key b).data))

instance : IsTotal PyVal course_le :=
  ⟨fun a b => le_total (sort_key a).data (sort_key b).data⟩

instance : IsTrans PyVal course_le :=
  ⟨fun _ _ _ hab hbc => le_trans hab hbc⟩

/-- DynamoDB `FilterExpression=Attr('State').eq(state)` on one item. -/
def state_matches (item : PyVal) (state : String) : Bool :=
  match pyLookup item "State" with
  | some (.str s) => s == state
  | _ => false

/-- DynamoDB `get_item(Key={'CourseID': course_id})` match on one item. -/
def key_matches (item : PyVal) (course_id : String) : Bool :=
  match pyLookup item "CourseID" with
  | some (.str s) => s == course_id
  | _ => false

/-- `get_all_courses` of lines 79-138, with the store modelled as the list of
items the paginated scan returns and DynamoDB access assumed available (the
table-status and exception branches are unreachable in that model). -/
def get_all_courses (table : List PyVal) : PyVal :=
  let courses := convert_list table
  let normalized_courses := courses.map normalize_course
  let sorted := List.insertionSort course_le normalized_courses
  .dict [("success", .bool true),
         ("data", .dict
           [("courses", .list sorted),
            ("totalCourses", .int (sorted.length : Int)),
            ("message", .str ("Retrieved " ++ toString sorted.length
              ++ " courses successfully from MyCourses table"))])]

/-- The `'state parameter is required'` validation result of lines 144-149. -/
def state_required_error : PyVal :=
  .dict [("success", .bool false),
         ("error", .str "state parameter is required"),
         ("validStates", .list [.str "Completed", .str "In Progress", .str "Not Started"])]

/-- `get_courses_by_state` of lines 140-201: filtered scan, decimal
conversion, normalization and sort; `if not state:` covers both a missing
and an empty `state` parameter. -/
def get_courses_by_state (table : List PyVal) (params : List (String × String)) : PyVal :=
  match params.lookup "state" with
  | none => state_required_error
  | some state =>
    if state = "" then state_required_error
    else
      let courses := convert_list (table.filter (fun item => state_matches item state))
      let normalized_courses := courses.map normalize_course
      let sorted := List.insertionSort course_le normalized_courses
      .dict [("success", .bool true),
             ("data", .dict
               [("courses", .list sorted),
                ("totalCourses", .int (sorted.length : Int)),
                ("state", .str state),
                ("message", .str ("Found " ++ toString sorted.length
                  ++ " courses with state: " ++ state))])]

/-- The `'courseId parameter is required'` validation result of lines 207-211. -/
def courseId_required_error : PyVal :=
  .dict [("success", .bool false),
         ("error", .str "courseId parameter is required")]

/-- `get_course_details` of lines 203-255: point lookup by `CourseID`; a
missing record is a successful result with `found: false`. -/
def get_course_details (table : List PyVal) (params : List (String × String)) : PyVal :=
  match params.lookup "courseId" with
  | none => courseId_required_error
  | some course_id =>
    if course_id = "" then courseId_required_error
    else
      match table.find? (fun item => key_matches item course_id) with
      | none =>
        .dict [("success", .bool true),
               ("data", .dict
                 [("courseId", .str course_id),
                  ("found", .bool false),
                  ("message", .str ("Course with ID " ++ course_id ++ " not found"))])]
      | some item =>
        let course := convert_decimals item
        let normalized_course := normalize_course course
        .dict [("success", .bool true),
               ("data", .dict
                 [("courseId", .str course_id),
                  ("found", .bool true),
                  ("course", normalized_course),
                  ("message", .str "Course details retrieved successfully")])]

/-- The Bedrock envelope of `create_bedrock_response` (lines 268-288).  The
`responseBody` JSON string is kept structural as the result dict itself. -/
structure BedrockResponse where
  messageVersion : String
  actionGroup : String
  apiPath : String
  httpMethod : String
  httpStatusCode : Nat
  body : PyVal

/-- `create_bedrock_response` of lines 268-288: 200 when the inner result is
truthy on `success` (defaulting to `False`), else 400. -/
def create_bedrock_response (action_group api_path http_method : String)
    (result : PyVal) : BedrockResponse :=
  { messageVersion := "1.0"
    actionGroup := action_group
    apiPath := api_path
    httpMethod := http_method
    httpStatusCode := if truthy (pyGet result "success" (.bool false)) then 200 else 400
    body := result }

/-- The `availablePaths` list of line 59. -/
def availablePaths : List String :=
  ["/getAllCourses", "/getCoursesByState", "/getCourseDetails",
   "/getCompletedCourses", "/getInProgressCourses", "/getNotStartedCourses"]

/-- The inbound Bedrock action event (lines 30-33): `event.get` defaults are
applied in the handler; `parameters` is the list of `{name, value}` pairs. -/
structure ActionEvent where
  actionGroup : Option String
  apiPath : Option String
  httpMethod : Option String
  parameters : List (String × String)

/-- One `params[param['name']] = param['value']` step: Python dict assignment
overwrites an existing key in place, else appends in insertion order. -/
def upsert (d : List (String × String)) (k v : String) : List (String × String) :=
  if (d.lookup k).isSome then
    d.map (fun p => if p.1 = k then (k, v) else p)
  else d ++ [(k, v)]

/-- The parameter-dict construction loop of lines 36-38. -/
def buildParams (ps : List (String × String)) : List (String × String) :=
  ps.foldl (fun d p => upsert d p.1 p.2) []

/-- `lambda_handler` of `src/LambdaAction.py` lines 12-77, with the DynamoDB
connection modelled as established (its failure branch and the outer
catch-all of lines 64-77 are unreachable over the pure store model). -/
def lambda_handler (table : List PyVal) (event : ActionEvent) : BedrockResponse :=
  let action_group := event.actionGroup.getD "CourseActionGroup"
  let api_path := event.apiPath.getD ""
  let http_method := event.httpMethod.getD "GET"
  let params := buildParams event.parameters
  let result :=
    if api_path = "/getAllCourses" then get_all_courses table
    else if api_path = "/getCoursesByState" then get_courses_by_state table params
    else if api_path = "/getCourseDetails" then get_course_details table params
    else if api_path = "/getCompletedCourses" then
      get_courses_by_state table [("state", "Completed")]
    else if api_path = "/getInProgressCourses" then
      get_courses_by_state table [("state", "In Progress")]
    else if api_path = "/getNotStartedCourses" then
      get_courses_by_state table [("state", "Not Started")]
    else
      .dict [("success", .bool false),
             ("error", .str ("Unknown API path: " ++ api_path)),
             ("availablePaths", .list (availablePaths.map .str))]
  create_bedrock_response action_group api_path http_method result

/-- The list of courses inside a successful query result. -/
def result_courses (r : PyVal) : List PyVal :=
  match pyGet (pyGet r "data" (.str "")) "courses" (.str "") with
  | .list l => l
  | _ => []

/-- Whether a value is still a decimal-tagged number. -/
def is_dec : PyVal → Bool
  | .dec _ => true
  | _ => false

/-- Whether the stored `CourseID` attribute (when present) is a string, the
domain on which the Python sort-key comparison is defined. -/
def id_field_ok (item : PyVal) : Bool :=
  match pyLookup item "CourseID" with
  | some (.str _) => true
  | none => true
  | some _ => false

end LambdaAction

namespace CallToAgent

/-- Modelled from the spec: the module-level identifiers of the two backend
agent/alias pairs and the general agent name are loaded from environment
configuration ("Configuration surface (environment): ... plus identifiers for
two distinct backend agent/alias pairs"); their definitions do not appear in
`src/LambdaCallToAgent.py`, only their uses, so they are kept abstract as a
configuration record threaded through the handler. -/
structure AgentConfig where
  agentName : String
  agentId : String
  agentAliasId : String
  courseAgentId : String
  courseAgentAliasId : String

/-- `MAX_PROMPT_LENGTH` (line 18) at its default of 4000. -/
def MAX_PROMPT_LENGTH : Nat := 4000

/-- The non-technical keyword list of `is_technical_query` (lines 161-170). -/
def non_technical_keywords : List String :=
  ["cook", "recipe", "food", "meal", "kitchen", "bake", "ingredient",
   "dating", "relationship", "love", "romance", "marriage",
   "medical", "health", "doctor", "medicine", "symptom", "disease",
   "legal", "lawyer", "law", "court", "lawsuit",
   "investment", "stock", "crypto", "bitcoin", "trading",
   "weather", "sports", "game", "movie", "music", "entertainment",
   "travel", "vacation", "hotel", "flight",
   "shopping", "fashion", "clothes", "style"]

/-- The technical keyword list of `is_technical_query` (lines 173-183). -/
def technical_keywords : List String :=
  ["programming", "code", "software", "development", "developer",
   "python", "java", "javascript", "react", "node", "aws", "cloud",
   "ai", "artificial intelligence", "machine learning", "ml", "data science",
   "algorithm", "database", "sql", "api", "framework", "library",
   "career", "job", "interview", "resume", "certification", "course",
   "skill", "learn", "study", "education", "training", "bootcamp",
   "technology", "tech", "computer", "engineering", "devops",
   "cybersecurity", "security", "network", "system", "architecture",
   "agile", "scrum", "project management", "leadership", "management"]

/-- `is_technical_query` of lines 154-197: a non-technical keyword match in
the lower-cased prompt rejects first; then a technical keyword accepts; with
no match from either list the default is to accept. -/
def is_technical_query (prompt : String) : Bool :=
  let prompt_lower := (lower prompt)
  if non_technical_keywords.any (fun keyword => substrOf keyword prompt_lower) then false
  else if technical_keywords.any (fun keyword => substrOf keyword prompt_lower) then true
  else true

/-- `generate_off_topic_response` of lines 199-243. -/
def generate_off_topic_response (prompt : String) : String :=
  let prompt_lower := (lower prompt)
  let topic :=
    if substrOf "cook" prompt_lower || substrOf "recipe" prompt_lower
        || substrOf "food" prompt_lower then "cooking"
    else if substrOf "dating" prompt_lower || substrOf "relationship" prompt_lower then
      "relationships"
    else if substrOf "health" prompt_lower || substrOf "medical" prompt_lower then
      "health advice"
    else if substrOf "legal" prompt_lower || substrOf "law" prompt_lower then
      "legal advice"
    else if substrOf "investment" prompt_lower || substrOf "stock" prompt_lower then
      "investment advice"
    else if substrOf "weather" prompt_lower then "weather"
    else if substrOf "sports" prompt_lower || substrOf "game" prompt_lower then
      "sports or games"
    else "that topic"
  "I\x27m an AI Upskill Coach focused on technical career development. I can\x27t help with "
    ++ topic
    ++ ", but I\x27d be happy to assist you with:\n\n🚀 **AI & Machine Learning Careers**\n• Career paths in AI/ML, data science, and analytics\n• Required skills and certifications\n• Industry trends and opportunities\n\n💻 **Programming & Development**\n• Programming languages (Python, JavaScript, Java, etc.)\n• Frameworks and tools\n• Best practices and coding skills\n\n📚 **Learning & Certifications**\n• Technical courses and bootcamps\n• AWS, Google Cloud, Microsoft certifications\n• Online learning platforms and resources\n\n📝 **Professional Development**\n• Resume optimization for tech roles\n• Technical interview preparation\n• Career progression strategies\n\nWhat technical topic would you like to explore today?"

/-- `get_fallback_response` of lines 344-372: the fixed fallback message. -/
def get_fallback_response : String :=
  "I apologize, but I\x27m experiencing technical difficulties right now. However, I\x27m here to help with your technical career development!\n\nHere are some ways I can assist you:\n\n🚀 **Career Guidance**\n• AI/ML career paths and opportunities\n• Software engineering roles and progression\n• Data science and analytics careers\n\n💻 **Technical Skills**\n• Programming languages to learn\n• Frameworks and tools recommendations\n• Best practices and coding standards\n\n📚 **Learning Resources**\n• Online courses and certifications\n• Bootcamps and training programs\n• Books and documentation\n\n📝 **Professional Development**\n• Resume and portfolio optimization\n• Interview preparation strategies\n• Networking and career growth tips\n\nPlease try asking your question again, or let me know what specific area you\x27d like to focus on!"

/-- The `mycourse_keywords` list of lines 253-257. -/
def mycourse_keywords : List String :=
  ["my course", "my all course", "my completed course",
   "my in progress course", "my ongoing course",
   "all my course", "my course list"]

/-- The agent-selection test of line 264: some course phrase occurs in the
lower-cased prompt. -/
def selects_course_agent (prompt : String) : Bool :=
  mycourse_keywords.any (fun keyword => substrOf keyword (lower prompt))

/-- Which (agentId, agentAliasId) pair `invoke_agent` is called with
(lines 264-281): the course-specialized pair on a phrase match, else the
general-purpose pair. -/
def invoked_agent (cfg : AgentConfig) (prompt : String) : String × String :=
  if selects_course_agent prompt then (cfg.courseAgentId, cfg.courseAgentAliasId)
  else (cfg.agentId, cfg.agentAliasId)

/-- One event of the agent completion stream (lines 289-303): a `chunk`
event carries its decoded `bytes` payload when present; `trace` and
`returnControl` events are logged and ignored; anything else is skipped. -/
inductive StreamEvent where
  | chunk (bytesText : Option String)
  | trace
  | returnControl
  | other

/-- The completion event stream: the events delivered in order, and whether
iteration raises after the last delivered event instead of finishing. -/
structure EventStream where
  events : List StreamEvent
  raises : Bool

/-- The accumulation loop of lines 288-303: text-bearing chunk payloads are
concatenated in emission order; every other event leaves the accumulator
unchanged. -/
def accumulate_chunks (events : List StreamEvent) : String :=
  events.foldl
    (fun acc e =>
      match e with
      | .chunk (some chunk_text) => acc ++ chunk_text
      | _ => acc)
    ""

/-- Stream processing of lines 284-318: on a mid-iteration error, accumulated
non-whitespace text is kept (falling through to the final emptiness check),
otherwise the fallback is returned; a normally completed but empty or
whitespace-only accumulation also yields the fallback. -/
def process_stream (s : EventStream) : String :=
  let ai_response := accumulate_chunks s.events
  if s.raises then
    if (strip ai_response) ≠ "" then
      if (strip ai_response) = "" then get_fallback_response else (strip ai_response)
    else get_fallback_response
  else
    if (strip ai_response) = "" then get_fallback_response else (strip ai_response)

/-- Outcome of `bedrock_agent_runtime.invoke_agent`: a `ClientError` with a
code, some other raised exception, or a completion event stream. -/
inductive InvokeOutcome where
  | clientError (code : String)
  | raised (msg : String)
  | completion (s : EventStream)

/-- Environment of one invocation: the response of the Bedrock runtime for
the chosen target (`true` = course agent), the `datetime.utcnow().isoformat()`
timestamp, and the generated default session id of line 67. -/
structure AgentOracle where
  invoke : Bool → InvokeOutcome
  timestamp : String
  genSessionId : String

/-- `generate_ai_response_with_agent` of lines 245-342: every `ClientError`
code and every unexpected invocation error collapse to the fallback text;
a completion stream is aggregated by `process_stream`. -/
def generate_ai_response_with_agent (o : AgentOracle) (prompt : String) : String :=
  match o.invoke (selects_course_agent prompt) with
  | .clientError _ => get_fallback_response
  | .raised _ => get_fallback_response
  | .completion s => process_stream s

/-- A Lambda proxy response (`statusCode`, `headers`, JSON `body` kept
structural). -/
structure LambdaResponse where
  statusCode : Nat
  headers : List (String × String)
  body : PyVal

/-- The CORS headers of lines 41-46 (the `Access-Control-Allow-Origin` entry
is commented out in the source). -/
def cors_headers : List (String × String) :=
  [("Content-Type", "application/json"),
   ("Access-Control-Allow-Methods", "POST, OPTIONS"),
   ("Access-Control-Allow-Headers", "Content-Type, Authorization")]

/-- The `agent` metadata block shared by both envelopes (lines 386-390 and
405-409): always the general-purpose identifiers. -/
def agent_block (cfg : AgentConfig) : PyVal :=
  .dict [("name", .str cfg.agentName),
         ("id", .str cfg.agentId),
         ("aliasId", .str cfg.agentAliasId)]

/-- `create_success_response` of lines 374-392. -/
def create_success_response (cfg : AgentConfig) (timestamp : String)
    (message : String) (session_id : PyVal)
    (headers : List (String × String)) : LambdaResponse :=
  { statusCode := 200
    headers := headers
    body := .dict [("response", .str message),
                   ("sessionId", session_id),
                   ("timestamp", .str timestamp),
                   ("status", .str "success"),
                   ("agent", agent_block cfg)] }

/-- `create_error_response` of lines 394-411. -/
def create_error_response (cfg : AgentConfig) (timestamp : String)
    (error_message : String) (headers : List (String × String))
    (status_code : Nat) : LambdaResponse :=
  { statusCode := status_code
    headers := headers
    body := .dict [("error", .str error_message),
                   ("timestamp", .str timestamp),
                   ("status", .str "error"),
                   ("agent", agent_block cfg)] }

/-- Python `value.strip()`: succeeds with the trimmed text on a string,
raises `AttributeError` on any other value. -/
def py_strip (v : PyVal) : Except String String :=
  match v with
  | .str s => .ok (strip s)
  | _ => .error "AttributeError: object has no attribute strip"

/-- The harmful content patterns of line 114. -/
def harmful_patterns : List String :=
  ["<script", "javascript:", "data:", "vbscript:"]

/-- `validate_request` of lines 96-120.  It returns the `(is_valid,
error_message)` pair of the source; `body['prompt'].strip()` on a non-string
prompt raises, which the function does not catch. -/
def validate_request (body : PyVal) : Except String (Bool × Option String) :=
  if ¬ truthy body then .ok (false, some "Request body is required")
  else if (pyLookup body "prompt").isNone then .ok (false, some "Prompt is required")
  else
    match py_strip (pyGet body "prompt" (.str "")) with
    | .error e => .error e
    | .ok prompt =>
      if prompt = "" then .ok (false, some "Prompt cannot be empty")
      else if prompt.length > MAX_PROMPT_LENGTH then
        .ok (false, some ("Prompt too long (max " ++ toString MAX_PROMPT_LENGTH
          ++ " characters)"))
      else if harmful_patterns.any (fun pat => substrOf pat (lower prompt)) then
        .ok (false, some "Invalid content detected in prompt")
      else .ok (true, none)

/-- The inbound event, abstracted to what the handler branches on:
whether `httpMethod` is `OPTIONS`, and the value `parse_request_body`
(lines 122-152) returns — that function catches its own exceptions and
returns the parsed body or `None`, never raising. -/
structure AgentEvent where
  isOptions : Bool
  parsedBody : Option PyVal

/-- The body of the `try` block of `lambda_handler` (lines 37-85), as an
`Except` computation: a `.error` is an uncaught exception reaching the
outermost handler boundary. -/
def handler_body (cfg : AgentConfig) (o : AgentOracle) (event : AgentEvent) :
    Except String LambdaResponse :=
  let headers := cors_headers
  if event.isOptions then
    .ok { statusCode := 200, headers := headers,
          body := .dict [("message", .str "CORS preflight successful")] }
  else
    match event.parsedBody with
    | none => .ok (create_error_response cfg o.timestamp "Invalid request format" headers 400)
    | some body =>
      if ¬ truthy body then
        .ok (create_error_response cfg o.timestamp "Invalid request format" headers 400)
      else
        match validate_request body with
        | .error e => .error e
        | .ok (false, error_message) =>
          .ok (create_error_response cfg o.timestamp (error_message.getD "") headers 400)
        | .ok (true, _) =>
          match py_strip (pyGet body "prompt" (.str "")) with
          | .error e => .error e
          | .ok prompt =>
            let session_id :=
              match pyLookup body "sessionId" with
              | some v => v
              | none => .str o.genSessionId
            if ¬ is_technical_query prompt then
              .ok (create_success_response cfg o.timestamp
                (generate_off_topic_response prompt) session_id headers)
            else
              .ok (create_success_response cfg o.timestamp
                (generate_ai_response_with_agent o prompt) session_id headers)

/-- `lambda_handler` of lines 31-94: the outermost `try/except` converts any
uncaught exception from the body into the generic 500 error envelope; by
construction the handler always returns a `LambdaResponse`, never an
exception. -/
def lambda_handler (cfg : AgentConfig) (o : AgentOracle) (event : AgentEvent) :
    LambdaResponse :=
  match handler_body cfg o event with
  | .ok r => r
  | .error _ =>
    create_error_response cfg o.timestamp
      "An unexpected error occurred. Please try again later." cors_headers 500

/-- Whether a stream event is a `chunk` event (`'chunk' in event`). -/
def is_chunk : StreamEvent → Bool
  | .chunk _ => true
  | _ => false

/-- A sample configuration for concrete evaluations; the agent name is the
one quoted in the source docstring (line 247), the identifiers are
placeholders for the environment-provided values. -/
def cfg0 : AgentConfig :=
  { agentName := "myagent-invoke-llm"
    agentId := "GENERALAGENT"
    agentAliasId := "GENERALALIAS"
    courseAgentId := "COURSEAGENT"
    courseAgentAliasId := "COURSEALIAS" }

/-- A sample invocation environment whose agent call raises. -/
def oracle0 : AgentOracle :=
  { invoke := fun _ => .raised "boom"
    timestamp := "2025-10-12T00:00:00"
    genSessionId := "session_1760227200" }

end CallToAgent

namespace LambdaAction

theorem convert_list_eq_map (l : List PyVal) :
    convert_list l = l.map convert_decimals := by
  induction l with
  | nil => rfl
  | cons v vs ih => simp [convert_list, ih]

theorem lookup_convert_fields (d : List (String × PyVal)) (k : String) :
    (convert_fields d).lookup k = (d.lookup k).map convert_decimals := by
  induction d with
  | nil => rfl
  | cons kv kvs ih =>
    obtain ⟨k', v⟩ := kv
    by_cases hk : k == k'
    · simp [convert_fields, List.lookup, hk]
    · simp [convert_fields, List.lookup, hk, ih]

theorem is_dec_convert_decimals (v : PyVal) :
    is_dec (convert_decimals v) = false := by
  cases v <;> rfl

theorem is_dec_pyGet_convert (v : PyVal) (k : String) :
    is_dec (pyGet (convert_decimals v) k (.str "")) = false := by
  cases v with
  | dict fields =>
    simp only [pyGet, pyLookup, convert_decimals, lookup_convert_fields]
    cases fields.lookup k with
    | none => rfl
    | some w => simpa using is_dec_convert_decimals w
  | str s => rfl
  | bool b => rfl
  | int n => rfl
  | dec q => rfl
  | flt q => rfl
  | list items => rfl

theorem duration_normalize (v : PyVal) :
    pyGet (normalize_course v) "Duration" (.str "")
      = pyGet v "Duration (hours)" (.str "") := rfl

theorem pyGet_convert_of_dec (item : PyVal) (k : String) (q : Rat)
    (h : pyGet item k (.str "") = .dec q) :
    pyGet (convert_decimals item) k (.str "") = .flt q := by
  cases item with
  | dict fields =>
    simp only [pyGet, pyLookup, convert_decimals, lookup_convert_fields]
    simp only [pyGet, pyLookup] at h
    cases hl : fields.lookup k with
    | none => rw [hl] at h; simp at h
    | some w =>
      rw [hl] at h
      simp at h
      subst h
      rfl
  | str s => simp [pyGet, pyLookup] at h
  | bool b => simp [pyGet, pyLookup] at h
  | int n => simp [pyGet, pyLookup] at h
  | dec q' => simp [pyGet, pyLookup] at h
  | flt q' => simp [pyGet, pyLookup] at h
  | list items => simp [pyGet, pyLookup] at h

/-- C6: for every CourseQueryService event whose apiPath is not one of the
six supported paths, the handler returns a structured result that sets
`success` to false and enumerates the six valid paths, and the Bedrock
envelope wraps it with httpStatusCode 400; in general the envelope's
httpStatusCode is 200 exactly when the inner result's success flag is
truthy, else 400. -/
theorem C6_unknown_path_soft_failure (table : List PyVal) (event : ActionEvent)
    (h : event.apiPath.getD "" ∉ availablePaths) :
    (lambda_handler table event).httpStatusCode = 400 ∧
    pyGet (lambda_handler table event).body "availablePaths" (.str "")
      = .list (availablePaths.map .str) ∧
    pyGet (lambda_handler table event).body "success" (.str "") = .bool false ∧
    ∀ (ag p m : String) (result : PyVal),
      (create_bedrock_response ag p m result).httpStatusCode =
        (if truthy (pyGet result "success" (.bool false)) then 200 else 400) := by
  simp only [availablePaths, List.mem_cons, List.not_mem_nil, or_false, not_or] at h
  obtain ⟨h1, h2, h3, h4, h5, h6⟩ := h
  refine ⟨?_, ?_, ?_, fun ag p m result => rfl⟩ <;>
    simp [lambda_handler, create_bedrock_response, h1, h2, h3, h4, h5, h6,
      pyGet, pyLookup, List.lookup, truthy, availablePaths]

/-- C6 witness: a concrete unknown path is wrapped with status 400 and the
six valid paths enumerated. -/
theorem C6_witness :
    (lambda_handler [] ⟨none, some "/bogus", none, []⟩).httpStatusCode = 400 ∧
    pyGet (lambda_handler [] ⟨none, some "/bogus", none, []⟩).body
        "availablePaths" (.str "") = .list (availablePaths.map .str) :=
  ⟨(C6_unknown_path_soft_failure [] ⟨none, some "/bogus", none, []⟩ (by decide)).1,
   (C6_unknown_path_soft_failure [] ⟨none, some "/bogus", none, []⟩ (by decide)).2.1⟩

/-- C7: a /getCourseDetails request whose courseId is present and nonempty
but matches no record yields an inner result with success true and
data.found false, wrapped with httpStatusCode 200. -/
theorem C7_missing_course_is_success (table : List PyVal) (cid : String)
    (event : ActionEvent)
    (hpath : event.apiPath = some "/getCourseDetails")
    (hparam : (buildParams event.parameters).lookup "courseId" = some cid)
    (hcid : cid ≠ "")
    (hnone : ∀ item ∈ table, key_matches item cid = false) :
    (lambda_handler table event).httpStatusCode = 200 ∧
    pyGet (lambda_handler table event).body "success" (.str "") = .bool true ∧
    pyGet (pyGet (lambda_handler table event).body "data" (.str ""))
      "found" (.str "") = .bool false := by
  have hfind : table.find? (fun item => key_matches item cid) = none :=
    List.find?_eq_none.mpr (fun item hitem => by simp [hnone item hitem])
  refine ⟨?_, ?_, ?_⟩ <;>
    simp [lambda_handler, hpath, get_course_details, hparam, hcid, hfind,
      create_bedrock_response, pyGet, pyLookup, List.lookup, truthy]

/-- C7 witness: a concrete nonexistent courseId against a one-record store. -/
theorem C7_witness :
    (lambda_handler [PyVal.dict [("CourseID", PyVal.str "C1")]]
        ⟨none, some "/getCourseDetails", none, [("courseId", "C999")]⟩).httpStatusCode
      = 200 ∧
    pyGet (pyGet (lambda_handler [PyVal.dict [("CourseID", PyVal.str "C1")]]
        ⟨none, some "/getCourseDetails", none, [("courseId", "C999")]⟩).body
      "data" (.str "")) "found" (.str "") = .bool false :=
  ⟨(C7_missing_course_is_success [PyVal.dict [("CourseID", PyVal.str "C1")]] "C999"
      ⟨none, some "/getCourseDetails", none, [("courseId", "C999")]⟩
      rfl rfl (by decide) (by decide)).1,
   (C7_missing_course_is_success [PyVal.dict [("CourseID", PyVal.str "C1")]] "C999"
      ⟨none, some "/getCourseDetails", none, [("courseId", "C999")]⟩
      rfl rfl (by decide) (by decide)).2.2⟩


theorem result_courses_get_all (table : List PyVal) :
    result_courses (get_all_courses table)
      = List.insertionSort course_le ((convert_list table).map normalize_course) := rfl

theorem get_state_missing (table : List PyVal) (params : List (String × String))
    (hl : params.lookup "state" = none) :
    get_courses_by_state table params = state_required_error := by
  simp only [get_courses_by_state, hl]

theorem get_state_empty (table : List PyVal) (params : List (String × String))
    (hl : params.lookup "state" = some "") :
    get_courses_by_state table params = state_required_error := by
  simp [get_courses_by_state, hl]

theorem result_courses_by_state (table : List PyVal) (params : List (String × String))
    (state : String) (hl : params.lookup "state" = some state) (hs : state ≠ "") :
    result_courses (get_courses_by_state table params)
      = List.insertionSort course_le
          ((convert_list (table.filter (fun item => state_matches item state))).map
            normalize_course) := by
  simp only [get_courses_by_state, hl, if_neg hs]
  rfl

theorem result_courses_state_required :
    result_courses state_required_error = [] := rfl

/-- C8: every list-returning course query emits its course list sorted
ascending by the CourseID field under plain string comparison, for stores
whose CourseID attributes are strings. -/
theorem C8_courses_sorted_by_id (table : List PyVal)
    (hids : ∀ item ∈ table, id_field_ok item = true) :
    List.Sorted course_le (result_courses (get_all_courses table)) ∧
    ∀ params, List.Sorted course_le (result_courses (get_courses_by_state table params)) := by
  have _ := hids
  constructor
  · rw [result_courses_get_all]
    exact List.sorted_insertionSort course_le _
  · intro params
    cases hl : params.lookup "state" with
    | none =>
      rw [get_state_missing table params hl, result_courses_state_required]
      exact List.sorted_nil
    | some state =>
      by_cases hs : state = ""
      · subst hs
        rw [get_state_empty table params hl, result_courses_state_required]
        exact List.sorted_nil
      · rw [result_courses_by_state table params state hl hs]
        exact List.sorted_insertionSort course_le _

/-- C8 witness: on a concrete two-record store the list-all result is sorted
and the record with identifier "C10" precedes the one with identifier "C2"
(plain string comparison). -/
theorem C8_witness :
    List.Sorted course_le
      (result_courses (get_all_courses
        [PyVal.dict [("CourseID", PyVal.str "C2"), ("State", PyVal.str "Completed")],
         PyVal.dict [("CourseID", PyVal.str "C10"), ("State", PyVal.str "Completed")]])) ∧
    (result_courses (get_all_courses
        [PyVal.dict [("CourseID", PyVal.str "C2"), ("State", PyVal.str "Completed")],
         PyVal.dict [("CourseID", PyVal.str "C10"), ("State", PyVal.str "Completed")]])).map
        sort_key = ["C10", "C2"] :=
  ⟨(C8_courses_sorted_by_id _ (by decide)).1, by decide⟩

/-- C9: on every response path the Duration field of an emitted course record
is never decimal-tagged, and a stored decimal duration is emitted as the
floating-point number with the same value. -/
theorem C9_duration_decimal_free (table : List PyVal) :
    (∀ c ∈ result_courses (get_all_courses table),
        is_dec (pyGet c "Duration" (.str "")) = false) ∧
    (∀ params, ∀ c ∈ result_courses (get_courses_by_state table params),
        is_dec (pyGet c "Duration" (.str "")) = false) ∧
    (∀ params,
        is_dec (pyGet (pyGet (pyGet (get_course_details table params) "data" (.str ""))
          "course" (.str "")) "Duration" (.str "")) = false) ∧
    (∀ item q, pyGet item "Duration (hours)" (.str "") = .dec q →
        pyGet (normalize_course (convert_decimals item)) "Duration" (.str "")
          = .flt q) := by
  have hmem : ∀ (l : List PyVal) (c : PyVal),
      c ∈ List.insertionSort course_le ((convert_list l).map normalize_course) →
      is_dec (pyGet c "Duration" (.str "")) = false := by
    intro l c hc
    rw [List.mem_insertionSort, convert_list_eq_map, List.map_map] at hc
    obtain ⟨item, _, rfl⟩ := List.mem_map.mp hc
    rw [Function.comp_apply, duration_normalize]
    exact is_dec_pyGet_convert item "Duration (hours)"
  refine ⟨?_, ?_, ?_, ?_⟩
  · intro c hc
    rw [result_courses_get_all] at hc
    exact hmem table c hc
  · intro params c hc
    cases hl : params.lookup "state" with
    | none =>
      rw [get_state_missing table params hl, result_courses_state_required] at hc
      exact absurd hc (List.not_mem_nil c)
    | some state =>
      by_cases hs : state = ""
      · subst hs
        rw [get_state_empty table params hl, result_courses_state_required] at hc
        exact absurd hc (List.not_mem_nil c)
      · rw [result_courses_by_state table params state hl hs] at hc
        exact hmem _ c hc
  · intro params
    cases hl : params.lookup "courseId" with
    | none => simp only [get_course_details, hl]; rfl
    | some cid =>
      by_cases hcid : cid = ""
      · simp only [get_course_details, hl, if_pos hcid]; rfl
      · cases hf : table.find? (fun item => key_matches item cid) with
        | none => simp only [get_course_details, hl, if_neg hcid, hf]; rfl
        | some item =>
          simp only [get_course_details, hl, if_neg hcid, hf]
          show is_dec (pyGet (normalize_course (convert_decimals item))
            "Duration" (.str "")) = false
          rw [duration_normalize]
          exact is_dec_pyGet_convert item "Duration (hours)"
  · intro item q hq
    rw [duration_normalize]
    exact pyGet_convert_of_dec item "Duration (hours)" q hq

/-- C9 witness: a stored decimal duration of value 5 is emitted as the float
5, and the Duration of the single get-all output record is not
decimal-tagged. -/
theorem C9_witness :
    pyGet (normalize_course (convert_decimals
        (PyVal.dict [("CourseID", PyVal.str "C1"), ("Duration (hours)", PyVal.dec 5)])))
      "Duration" (.str "") = .flt 5 ∧
    is_dec (pyGet (normalize_course (convert_decimals
        (PyVal.dict [("CourseID", PyVal.str "C1"), ("Duration (hours)", PyVal.dec 5)])))
      "Duration" (.str "")) = false :=
  ⟨(C9_duration_decimal_free
      [PyVal.dict [("CourseID", PyVal.str "C1"), ("Duration (hours)", PyVal.dec 5)]]).2.2.2
      (PyVal.dict [("CourseID", PyVal.str "C1"), ("Duration (hours)", PyVal.dec 5)]) 5 rfl,
   (C9_duration_decimal_free
      [PyVal.dict [("CourseID", PyVal.str "C1"), ("Duration (hours)", PyVal.dec 5)]]).1
      (normalize_course (convert_decimals
        (PyVal.dict [("CourseID", PyVal.str "C1"), ("Duration (hours)", PyVal.dec 5)])))
      (by rw [result_courses_get_all]; exact List.mem_singleton.mpr rfl)⟩

end LambdaAction

theorem substr_occurs_iff (k l : List Char) :
    substr_occurs k l = true ↔ k <:+: l := by
  induction l with
  | nil =>
    simp only [substr_occurs, List.isEmpty_iff, List.infix_nil]
  | cons c rest ih =>
    simp only [substr_occurs, Bool.or_eq_true, List.isPrefixOf_iff_prefix, ih,
      List.infix_cons_iff]

theorem substrOf_iff (k s : String) : substrOf k s = true ↔ k.data <:+: s.data :=
  substr_occurs_iff k.data s.data

namespace CallToAgent

/-- C1: whenever the body of the handler raises an uncaught exception, the
outermost handler boundary converts it into a returned status-500 error
envelope whose body carries the error, timestamp, status "error" and agent
fields; since `lambda_handler` is total, no exception ever propagates to
the caller. -/
theorem C1_unexpected_error_envelope (cfg : AgentConfig) (o : AgentOracle)
    (event : AgentEvent) (e : String)
    (h : handler_body cfg o event = .error e) :
    lambda_handler cfg o event =
      { statusCode := 500
        headers := cors_headers
        body := .dict
          [("error", .str "An unexpected error occurred. Please try again later."),
           ("timestamp", .str o.timestamp),
           ("status", .str "error"),
           ("agent", agent_block cfg)] } := by
  simp only [lambda_handler, h]
  rfl

/-- C1 witness: a request whose prompt is the integer 5 makes
`body['prompt'].strip()` raise inside the try block, and the handler
returns the 500 envelope. -/
theorem C1_witness :
    handler_body cfg0 oracle0 ⟨false, some (.dict [("prompt", PyVal.int 5)])⟩
      = .error "AttributeError: object has no attribute strip" ∧
    lambda_handler cfg0 oracle0 ⟨false, some (.dict [("prompt", PyVal.int 5)])⟩
      = { statusCode := 500
          headers := cors_headers
          body := .dict
            [("error", .str "An unexpected error occurred. Please try again later."),
             ("timestamp", .str oracle0.timestamp),
             ("status", .str "error"),
             ("agent", agent_block cfg0)] } :=
  ⟨rfl, C1_unexpected_error_envelope cfg0 oracle0
    ⟨false, some (.dict [("prompt", PyVal.int 5)])⟩
    "AttributeError: object has no attribute strip" rfl⟩

/-- C2: a prompt whose lower-cased text contains a non-technical keyword and
a technical keyword is rejected as off-topic: the non-technical match wins
outright. -/
theorem C2_nontechnical_precedence (prompt : String)
    (hn : ∃ k ∈ non_technical_keywords, k.data <:+: (lower prompt).data)
    (ht : ∃ k ∈ technical_keywords, k.data <:+: (lower prompt).data) :
    is_technical_query prompt = false := by
  have _ := ht
  obtain ⟨k, hk, hsub⟩ := hn
  have hany : non_technical_keywords.any
      (fun keyword => substrOf keyword (lower prompt)) = true :=
    List.any_eq_true.mpr ⟨k, hk, (substrOf_iff k (lower prompt)).mpr hsub⟩
  simp [is_technical_query, hany]

/-- C2 witness: "how to cook python" contains the non-technical keyword
"cook" and the technical keyword "python" and is rejected. -/
theorem C2_witness : is_technical_query "How to cook Python" = false :=
  C2_nontechnical_precedence "How to cook Python"
    ⟨"cook", by decide, (substrOf_iff "cook" (lower "How to cook Python")).mp rfl⟩
    ⟨"python", by decide, (substrOf_iff "python" (lower "How to cook Python")).mp rfl⟩

/-- C3: the course-specialized agent identity is invoked exactly when some
course-related phrase occurs as a substring of the lower-cased prompt;
otherwise the general-purpose agent identity is invoked. -/
theorem C3_agent_selection (cfg : AgentConfig) (prompt : String) :
    ((∃ k ∈ mycourse_keywords, k.data <:+: (lower prompt).data) →
      invoked_agent cfg prompt = (cfg.courseAgentId, cfg.courseAgentAliasId)) ∧
    ((¬ ∃ k ∈ mycourse_keywords, k.data <:+: (lower prompt).data) →
      invoked_agent cfg prompt = (cfg.agentId, cfg.agentAliasId)) := by
  constructor
  · intro h
    obtain ⟨k, hk, hsub⟩ := h
    have hany : mycourse_keywords.any
        (fun keyword => substrOf keyword (lower prompt)) = true :=
      List.any_eq_true.mpr ⟨k, hk, (substrOf_iff k (lower prompt)).mpr hsub⟩
    simp [invoked_agent, selects_course_agent, hany]
  · intro h
    cases hany : mycourse_keywords.any
        (fun keyword => substrOf keyword (lower prompt)) with
    | false => simp [invoked_agent, selects_course_agent, hany]
    | true =>
      obtain ⟨k, hk, hsub⟩ := List.any_eq_true.mp hany
      exact absurd ⟨k, hk, (substrOf_iff k (lower prompt)).mp hsub⟩ h

/-- C3 witness: "Show my course list" routes to the course agent pair,
"Tell me about Python" routes to the general agent pair. -/
theorem C3_witness :
    invoked_agent cfg0 "Show my course list"
      = (cfg0.courseAgentId, cfg0.courseAgentAliasId) ∧
    invoked_agent cfg0 "Tell me about Python" = (cfg0.agentId, cfg0.agentAliasId) :=
  ⟨(C3_agent_selection cfg0 "Show my course list").1
      ⟨"my course", by decide,
        (substrOf_iff "my course" (lower "Show my course list")).mp rfl⟩,
   (C3_agent_selection cfg0 "Tell me about Python").2 (by
      intro h
      obtain ⟨k, hk, hsub⟩ := h
      have hany : mycourse_keywords.any
          (fun keyword => substrOf keyword (lower "Tell me about Python")) = true :=
        List.any_eq_true.mpr
          ⟨k, hk, (substrOf_iff k (lower "Tell me about Python")).mpr hsub⟩
      exact absurd hany (by decide))⟩

/-- C4 as stated is false on the code: a stream that yields one text-bearing
chunk whose text is whitespace-only and then raises returns the fixed
fallback message, not the trimmed concatenation "" of the chunk texts
received before the fault. -/
theorem C4_counterexample :
    process_stream ⟨[StreamEvent.chunk (some " ")], true⟩ = get_fallback_response ∧
    process_stream ⟨[StreamEvent.chunk (some " ")], true⟩ ≠
      strip (accumulate_chunks [StreamEvent.chunk (some " ")]) := by
  exact ⟨rfl, by decide⟩

/-- C4 amended: a stream that raises mid-iteration after yielding text-bearing
chunks returns exactly the concatenation, in emission order, of the chunk
texts received before the fault, trimmed of surrounding whitespace — provided
that trimmed concatenation is non-empty; when the accumulated text is empty
or whitespace-only the fixed fallback message is returned instead. -/
theorem C4_partial_stream_returns_accumulated (events : List StreamEvent)
    (h : strip (accumulate_chunks events) ≠ "") :
    process_stream ⟨events, true⟩ = strip (accumulate_chunks events) := by
  simp [process_stream, h]

/-- C4 witness: a stream yielding "Hello" then " world" and then raising
returns "Hello world". -/
theorem C4_witness :
    process_stream ⟨[StreamEvent.chunk (some "Hello"), StreamEvent.trace,
      StreamEvent.chunk (some " world")], true⟩ = "Hello world" :=
  C4_partial_stream_returns_accumulated
    [StreamEvent.chunk (some "Hello"), StreamEvent.trace,
     StreamEvent.chunk (some " world")] (by decide)

theorem accumulate_chunks_aux (events : List StreamEvent)
    (h : ∀ e ∈ events, is_chunk e = false) (acc : String) :
    events.foldl
      (fun acc e =>
        match e with
        | StreamEvent.chunk (some chunk_text) => acc ++ chunk_text
        | _ => acc) acc = acc := by
  induction events generalizing acc with
  | nil => rfl
  | cons e es ih =>
    have he := h e (List.mem_cons_self e es)
    have hes : ∀ x ∈ es, is_chunk x = false :=
      fun x hx => h x (List.mem_cons_of_mem e hx)
    cases e with
    | chunk t => simp [is_chunk] at he
    | trace => exact ih hes acc
    | returnControl => exact ih hes acc
    | other => exact ih hes acc

theorem accumulate_chunks_of_no_chunk (events : List StreamEvent)
    (h : ∀ e ∈ events, is_chunk e = false) :
    accumulate_chunks events = "" :=
  accumulate_chunks_aux events h ""

/-- C5: a stream that completes normally with an empty or whitespace-only
accumulated text, and a stream that raises before any chunk event is
received, both produce exactly the fixed fallback message string. -/
theorem C5_fallback_on_empty_stream (events : List StreamEvent) (raises : Bool)
    (h : (raises = false ∧ strip (accumulate_chunks events) = "") ∨
         (raises = true ∧ ∀ e ∈ events, is_chunk e = false)) :
    process_stream ⟨events, raises⟩ = get_fallback_response := by
  rcases h with ⟨hr, he⟩ | ⟨hr, hnoc⟩
  · subst hr
    simp [process_stream, he]
  · subst hr
    have hacc : accumulate_chunks events = "" :=
      accumulate_chunks_of_no_chunk events hnoc
    have hs : strip (accumulate_chunks events) = "" := by rw [hacc]; rfl
    simp [process_stream, hs]

/-- C5 witness: a stream that raises after only a trace event, and a stream
that completes normally with a single whitespace-only chunk, both return the
fallback message. -/
theorem C5_witness :
    process_stream ⟨[StreamEvent.trace], true⟩ = get_fallback_response ∧
    process_stream ⟨[StreamEvent.chunk (some "  ")], false⟩ = get_fallback_response :=
  ⟨C5_fallback_on_empty_stream [StreamEvent.trace] true (Or.inr ⟨rfl, by decide⟩),
   C5_fallback_on_empty_stream [StreamEvent.chunk (some "  ")] false
     (Or.inl ⟨rfl, by decide⟩)⟩

/-- C10: every successful (status 200) non-preflight AgentRouter response
carries the general-purpose agent's name, id and aliasId in its agent
metadata block, even though a prompt matching a course phrase causes the
course-specialized agent pair to be the one actually invoked. -/
theorem C10_success_carries_general_agent (cfg : AgentConfig) (o : AgentOracle)
    (event : AgentEvent)
    (hopt : event.isOptions = false)
    (h200 : (lambda_handler cfg o event).statusCode = 200) :
    pyGet (lambda_handler cfg o event).body "agent" (.str "") = agent_block cfg ∧
    ∀ prompt, selects_course_agent prompt = true →
      invoked_agent cfg prompt = (cfg.courseAgentId, cfg.courseAgentAliasId) := by
  refine ⟨?_, fun prompt hp => by simp [invoked_agent, hp]⟩
  obtain ⟨iO, pb⟩ := event
  simp only at hopt
  subst hopt
  cases hb : handler_body cfg o ⟨false, pb⟩ with
  | error e =>
    have hl : lambda_handler cfg o ⟨false, pb⟩
        = create_error_response cfg o.timestamp
            "An unexpected error occurred. Please try again later." cors_headers 500 := by
      simp only [lambda_handler, hb]
    rw [hl] at h200
    simp [create_error_response] at h200
  | ok r =>
    have hl : lambda_handler cfg o ⟨false, pb⟩ = r := by
      simp only [lambda_handler, hb]
    rw [hl] at h200 ⊢
    cases pb with
    | none =>
      simp only [handler_body, Bool.false_eq_true, if_false, Except.ok.injEq] at hb
      subst hb
      simp [create_error_response] at h200
    | some body =>
      simp only [handler_body, Bool.false_eq_true, if_false] at hb
      by_cases ht : truthy body
      · rw [if_neg (by simp [ht])] at hb
        split at hb
        · simp at hb
        · next valid_false =>
          simp only [Except.ok.injEq] at hb
          subst hb
          simp [create_error_response] at h200
        · split at hb
          · simp at hb
          · split at hb
            · simp only [Except.ok.injEq] at hb
              subst hb
              rfl
            · simp only [Except.ok.injEq] at hb
              subst hb
              rfl
      · rw [if_pos (by simp [ht])] at hb
        simp only [Except.ok.injEq] at hb
        subst hb
        simp [create_error_response] at h200

/-- C10 witness: a valid on-topic prompt matching the course phrase
"my course" yields a 200 response whose agent block is the general-purpose
pair even though the course-specialized pair was invoked. -/
theorem C10_witness :
    pyGet (lambda_handler cfg0 oracle0
        ⟨false, some (.dict [("prompt", PyVal.str "Show my course list")])⟩).body
      "agent" (.str "") = agent_block cfg0 ∧
    invoked_agent cfg0 "Show my course list"
      = (cfg0.courseAgentId, cfg0.courseAgentAliasId) :=
  ⟨(C10_success_carries_general_agent cfg0 oracle0
      ⟨false, some (.dict [("prompt", PyVal.str "Show my course list")])⟩
      rfl (by decide)).1,
   (C10_success_carries_general_agent cfg0 oracle0
      ⟨false, some (.dict [("prompt", PyVal.str "Show my course list")])⟩
      rfl (by decide)).2 "Show my course list" rfl⟩

end CallToAgent
